import Mathlib

/-!
Verification of the file-to-link bot's serving core against its source.

The embedding follows the repository sources:
  - `src/utils.py`   : get_hash, get_media_from_message (token computation);
  - `src/database.py`: FileStats rows and update_file_stats;
  - `src/server.py`  : _parse_range, _serve_file, stream_handler,
                       download_handler, and the module/function name scopes
                       that Python consults when resolving free identifiers.

Python strings are modelled as `List Char` (with `String` wrappers where the
source produces a string value), Python ints as `Int`, and byte strings as
`List Nat` (each entry one byte).  Each exception-carrying computation returns
an `Except`.
-/

/-! ### Python primitives used by the embedded code -/

/-- A character Python's `int()` (and `str.strip`) treats as ASCII
whitespace: tab, newline, vertical tab, form feed, carriage return,
space. -/
def isPySpace (c : Char) : Bool :=
  [9, 10, 11, 12, 13, 32].contains c.toNat

/-- Strip leading and trailing whitespace, as Python `int()` does before
parsing its argument. -/
def pyStrip (cs : List Char) : List Char :=
  ((cs.dropWhile isPySpace).reverse.dropWhile isPySpace).reverse

/-- Value of a decimal digit character, `none` for non-digits. -/
def digitVal (c : Char) : Option Nat :=
  if c.isDigit then some (c.toNat - 48) else none

/-- Continue parsing a Python integer literal after its first digit: further
digits, with single underscores allowed only between digits (`int("1_0")` is
10, `int("1__0")` and `int("1_")` raise). -/
def parseDigitsCore : List Char → Nat → Option Nat
  | [], acc => some acc
  | '_' :: rest, acc =>
    match rest with
    | c :: rest2 =>
      match digitVal c with
      | some d => parseDigitsCore rest2 (acc * 10 + d)
      | none => none
    | [] => none
  | c :: rest, acc =>
    match digitVal c with
    | some d => parseDigitsCore rest (acc * 10 + d)
    | none => none

/-- Parse a nonempty digit sequence (first character must be a digit). -/
def pyIntDigits : List Char → Option Nat
  | [] => none
  | c :: rest =>
    match digitVal c with
    | some d => parseDigitsCore rest d
    | none => none

/-- Python's `int(s)` on a string: strip whitespace, optional single sign,
then decimal digits; `none` models the `ValueError` raised on bad input. -/
def pyInt (cs : List Char) : Option Int :=
  match pyStrip cs with
  | '+' :: rest => (pyIntDigits rest).map (fun n => (n : Int))
  | '-' :: rest => (pyIntDigits rest).map (fun n => -(n : Int))
  | rest => (pyIntDigits rest).map (fun n => (n : Int))

/-- Python `range_header.replace('bytes=', '')`: remove every non-overlapping
occurrence of the six-character pattern `bytes=`, scanning left to right.
The pattern is fixed in the source, so it is matched structurally here. -/
def replaceBytesEq : List Char → List Char
  | 'b' :: 'y' :: 't' :: 'e' :: 's' :: '=' :: rest => replaceBytesEq rest
  | c :: rest => c :: replaceBytesEq rest
  | [] => []

/-- Python `s.split(sep)` for a one-character separator: split at every
occurrence, keeping empty segments (`"900-".split('-') = ["900", ""]`). -/
def splitOnChar (sep : Char) : List Char → List (List Char)
  | [] => [[]]
  | c :: rest =>
    match splitOnChar sep rest with
    | s :: ss => if c == sep then [] :: s :: ss else (c :: s) :: ss
    | [] => if c == sep then [[], []] else [[c]]

/-! ### src/server.py `_parse_range` (lines 542-553) -/

/-- The arithmetic `_parse_range` applies to successfully parsed bounds
(line 551 of src/server.py): `return max(0, from_bytes), min(to_bytes,
file_size - 1)`. -/
def clampRange (from_bytes to_bytes file_size : Int) : Int × Int :=
  (max 0 from_bytes, min to_bytes (file_size - 1))

/-- src/server.py lines 542-553.  `range_value.split('-')` must produce
exactly two pieces (the tuple unpacking raises otherwise); an empty start
means 0, an empty end means `file_size - 1`; any exception inside the `try`
block falls back to `(0, file_size - 1)`. -/
def _parse_range (range_header : String) (file_size : Int) : Int × Int :=
  let range_value := replaceBytesEq range_header.data
  match splitOnChar '-' range_value with
  | [from_str, to_str] =>
    let fv? : Option Int := if from_str.isEmpty then some 0 else pyInt from_str
    let tv? : Option Int :=
      if to_str.isEmpty then some (file_size - 1) else pyInt to_str
    match fv?, tv? with
    | some fv, some tv => clampRange fv tv file_size
    | _, _ => (0, file_size - 1)
  | _ => (0, file_size - 1)

/-! ### MD5 (the `hashlib.md5(...).hexdigest()` call in src/utils.py line 80)

Standard MD5 over a byte string (`List Nat`, one byte per entry), with
32-bit words carried as `Nat` and reduced `% 2 ^ 32` wherever the algorithm
wraps.  Recursion is structural throughout so the digest evaluates inside
the kernel. -/

/-- Left-rotate a 32-bit word by `s` places. -/
def rotl32 (x s : Nat) : Nat :=
  ((x <<< s) ||| (x >>> (32 - s))) % 2 ^ 32

/-- Bitwise complement on 32-bit words. -/
def notw (x : Nat) : Nat := x ^^^ 0xffffffff

/-- The 64 MD5 round constants `K[i] = floor(2^32 * abs(sin(i+1)))`. -/
def md5K : List Nat :=
  [0xd76aa478, 0xe8c7b756, 0x242070db, 0xc1bdceee,
   0xf57c0faf, 0x4787c62a, 0xa8304613, 0xfd469501,
   0x698098d8, 0x8b44f7af, 0xffff5bb1, 0x895cd7be,
   0x6b901122, 0xfd987193, 0xa679438e, 0x49b40821,
   0xf61e2562, 0xc040b340, 0x265e5a51, 0xe9b6c7aa,
   0xd62f105d, 0x02441453, 0xd8a1e681, 0xe7d3fbc8,
   0x21e1cde6, 0xc33707d6, 0xf4d50d87, 0x455a14ed,
   0xa9e3e905, 0xfcefa3f8, 0x676f02d9, 0x8d2a4c8a,
   0xfffa3942, 0x8771f681, 0x6d9d6122, 0xfde5380c,
   0xa4beea44, 0x4bdecfa9, 0xf6bb4b60, 0xbebfbc70,
   0x289b7ec6, 0xeaa127fa, 0xd4ef3085, 0x04881d05,
   0xd9d4d039, 0xe6db99e5, 0x1fa27cf8, 0xc4ac5665,
   0xf4292244, 0x432aff97, 0xab9423a7, 0xfc93a039,
   0x655b59c3, 0x8f0ccc92, 0xffeff47d, 0x85845dd1,
   0x6fa87e4f, 0xfe2ce6e0, 0xa3014314, 0x4e0811a1,
   0xf7537e82, 0xbd3af235, 0x2ad7d2bb, 0xeb86d391]

/-- The 64 MD5 per-round left-rotation amounts. -/
def md5S : List Nat :=
  [7, 12, 17, 22, 7, 12, 17, 22, 7, 12, 17, 22, 7, 12, 17, 22,
   5, 9, 14, 20, 5, 9, 14, 20, 5, 9, 14, 20, 5, 9, 14, 20,
   4, 11, 16, 23, 4, 11, 16, 23, 4, 11, 16, 23, 4, 11, 16, 23,
   6, 10, 15, 21, 6, 10, 15, 21, 6, 10, 15, 21, 6, 10, 15, 21]

/-- The MD5 nonlinear function for round `i` applied to words `b`, `c`, `d`. -/
def md5f (i b c d : Nat) : Nat :=
  if i < 16 then (b &&& c) ||| (notw b &&& d)
  else if i < 32 then (d &&& b) ||| (notw d &&& c)
  else if i < 48 then b ^^^ c ^^^ d
  else c ^^^ (b ||| notw d)

/-- The MD5 message-word index used in round `i`. -/
def md5g (i : Nat) : Nat :=
  if i < 16 then i
  else if i < 32 then (5 * i + 1) % 16
  else if i < 48 then (3 * i + 5) % 16
  else (7 * i) % 16

/-- Little-endian bytes of `n`, `count` bytes long. -/
def leBytes (n count : Nat) : List Nat :=
  (List.range count).map (fun i => (n >>> (8 * i)) % 256)

/-- The `j`-th little-endian 32-bit word of a 64-byte chunk. -/
def leWord (chunk : List Nat) (j : Nat) : Nat :=
  chunk.getD (4 * j) 0 ||| (chunk.getD (4 * j + 1) 0 <<< 8) |||
    (chunk.getD (4 * j + 2) 0 <<< 16) ||| (chunk.getD (4 * j + 3) 0 <<< 24)

/-- One MD5 round: state `(a, b, c, d)`, round index `i`, message words `M`. -/
def md5step (M : Nat → Nat) (st : Nat × Nat × Nat × Nat) (i : Nat) :
    Nat × Nat × Nat × Nat :=
  match st with
  | (a, b, c, d) =>
    let f := (md5f i b c d + a + md5K.getD i 0 + M (md5g i)) % 2 ^ 32
    (d, (b + rotl32 f (md5S.getD i 0)) % 2 ^ 32, b, c)

/-- Process one 64-byte chunk, adding the round result into the state. -/
def md5block (st : Nat × Nat × Nat × Nat) (chunk : List Nat) :
    Nat × Nat × Nat × Nat :=
  match (List.range 64).foldl (md5step (leWord chunk)) st, st with
  | (a, b, c, d), (a0, b0, c0, d0) =>
    ((a0 + a) % 2 ^ 32, (b0 + b) % 2 ^ 32, (c0 + c) % 2 ^ 32, (d0 + d) % 2 ^ 32)

/-- MD5 padding: a `0x80` byte, zeros to 56 mod 64, then the bit length as
eight little-endian bytes. -/
def md5pad (msg : List Nat) : List Nat :=
  let l := msg.length
  let k := (56 - (l + 1) % 64 + 64) % 64
  msg ++ [0x80] ++ List.replicate k 0 ++ leBytes (l * 8) 8

/-- Split a byte list into 64-byte chunks; the fuel argument bounds the
number of chunks so the recursion is structural (the list length always
suffices, since every step consumes 64 bytes of a nonempty list). -/
def chunks64Go : Nat → List Nat → List (List Nat)
  | 0, _ => []
  | _, [] => []
  | fuel + 1, l => l.take 64 :: chunks64Go fuel (l.drop 64)

/-- Split a byte list into its 64-byte chunks. -/
def chunks64 (l : List Nat) : List (List Nat) := chunks64Go l.length l

/-- The 16 digest bytes of MD5 over a byte string. -/
def md5digestBytes (msg : List Nat) : List Nat :=
  let st := (chunks64 (md5pad msg)).foldl md5block
    (0x67452301, 0xefcdab89, 0x98badcfe, 0x10325476)
  leBytes st.1 4 ++ leBytes st.2.1 4 ++ leBytes st.2.2.1 4 ++ leBytes st.2.2.2 4

/-- The sixteen lowercase hexadecimal digit characters. -/
def hexDigits : List Char := "0123456789abcdef".data

/-- The hex character for a nibble: values below ten map into the decimal
digits (codes from 48), the rest into the lowercase letters (codes from
97, i.e. the value plus 87). -/
def hexChar (n : Nat) : Char :=
  if n < 10 then Char.ofNat (n + 48) else Char.ofNat (n + 87)

/-- Two lowercase hex characters for one byte, high nibble first. -/
def byteHex (b : Nat) : List Char := [hexChar (b / 16 % 16), hexChar (b % 16)]

/-- The characters of `hashlib.md5(msg).hexdigest()`. -/
def md5hexChars (msg : List Nat) : List Char :=
  ((md5digestBytes msg).map byteHex).flatten

/-! ### src/utils.py: media extraction and the integrity token -/

/-- A media payload attached to a chat message, as read by src/utils.py and
src/server.py: its platform-assigned stable id (`file_unique_id`, carried
here as its UTF-8 bytes), its `file_id`, declared size and mime type. -/
structure Media where
  file_unique_id : List Nat
  file_id : String
  file_size : Int
  mime_type : Option String
deriving Repr, DecidableEq

/-- A chat message as the serving code reads it.  The pyrogram message
carries one attached media object in exactly one of the eight attributes
`document`, `video`, `audio`, `animation`, `voice`, `video_note`, `photo`,
`sticker` that utils.get_media_from_message probes in order, and its
`media` attribute is set exactly when one of them is; the model collapses
the eight mutually exclusive slots into the single `media` field. -/
structure Message where
  media : Option Media
deriving Repr, DecidableEq

/-- src/utils.py lines 84-95: return the message's attached media object,
`None` when the message carries none (the eight-way attribute probe
collapses to the single `media` slot of the model). -/
def get_media_from_message (message : Message) : Option Media :=
  message.media

/-- src/utils.py lines 76-81: `hashlib.md5(media.file_unique_id.encode())
.hexdigest()[:12]` when the message carries media, `""` otherwise. -/
def get_hash (message : Message) : String :=
  match get_media_from_message message with
  | some media => String.mk ((md5hexChars media.file_unique_id).take 12)
  | none => ""

/-! ### src/database.py: FileStats rows and update_file_stats (lines 155-164) -/

/-- One row of the `file_stats` table, restricted to the columns the serving
path touches: the unique `file_id` key, the `views` and `downloads`
counters, and whether `last_accessed` has been written by a serve. -/
structure FileStat where
  file_id : String
  views : Int
  downloads : Int
  accessed : Bool
deriving Repr, DecidableEq

/-- The per-row mutation of update_file_stats once the row is found
(src/database.py lines 159-163): `views` grows on action `'view'`,
`downloads` on `'download'`, any other action only touches
`last_accessed`. -/
def updateOneStat (r : FileStat) (action : String) : FileStat :=
  let r :=
    if action = "view" then { r with views := r.views + 1 }
    else if action = "download" then { r with downloads := r.downloads + 1 }
    else r
  { r with accessed := true }

/-- Replace the first row keyed by `fid` (the column is UNIQUE, and
`query(...).first()` takes the first match). -/
def updateFirstStat : List FileStat → String → String → List FileStat
  | [], _, _ => []
  | r :: rs, fid, action =>
    if r.file_id = fid then updateOneStat r action :: rs
    else r :: updateFirstStat rs fid action

/-- Exceptions of the embedded Python code: pyrogram's `MessageNotFound`,
the interpreter's `NameError` on an unbound identifier, and a database
error raised by `session.commit()`. -/
inductive PyExc
  | messageNotFound
  | nameError (n : String)
  | dbError
deriving Repr, DecidableEq

instance {ε α : Type} [DecidableEq ε] [DecidableEq α] : DecidableEq (Except ε α) :=
  fun x y =>
    match x, y with
    | .ok a, .ok b =>
      if h : a = b then isTrue (by rw [h])
      else isFalse (by intro he; cases he; exact h rfl)
    | .error a, .error b =>
      if h : a = b then isTrue (by rw [h])
      else isFalse (by intro he; cases he; exact h rfl)
    | .ok _, .error _ => isFalse (by intro he; cases he)
    | .error _, .ok _ => isFalse (by intro he; cases he)

/-- src/database.py lines 155-164: look the row up by `file_id`; when found,
apply the action's increment, stamp `last_accessed` and commit — a failing
commit (modelled by `commitFails`) raises and persists nothing.  When no
row matches, nothing happens and nothing is committed. -/
def update_file_stats (commitFails : Bool) (db : List FileStat)
    (file_id action : String) : Except PyExc (List FileStat) :=
  if (db.find? (fun r => r.file_id == file_id)).isSome then
    if commitFails then .error .dbError
    else .ok (updateFirstStat db file_id action)
  else .ok db

/-! ### src/server.py: name scopes

Python resolves a free identifier inside a function against the local scope,
then the module's global scope, then the builtins; any miss raises
`NameError`.  The lists below transcribe exactly which names src/server.py
binds. -/

/-- Names bound at module level of src/server.py: its imports (lines 3-16)
and its class statement.  `get_hash` and `get_media_from_message` are NOT
among them — line 16 imports only `get_readable_file_size` and
`get_readable_time` from utils. -/
def serverModuleScope : List String :=
  ["os", "logging", "mimetypes", "Optional", "datetime", "web", "Response",
   "StreamResponse", "FileId", "MessageNotFound", "Config", "FileStats",
   "update_file_stats", "get_readable_file_size", "get_readable_time",
   "WebServer"]

/-- Names bound inside `_serve_file` (src/server.py lines 475-540): its
parameters and every variable its body assigns.  `request` is NOT among
them — the method receives only `message_id`, `filename`, `file_hash` and
`mode`. -/
def serveFileLocalScope : List String :=
  ["self", "message_id", "filename", "file_hash", "mode", "message", "media",
   "file_size", "mime_type", "response", "range_header", "from_bytes",
   "to_bytes", "chunk", "e"]

/-- The Python builtins the body refers to. -/
def pyBuiltinScope : List String :=
  ["getattr", "str", "int", "max", "min", "tuple", "Exception"]

/-- Whether a free identifier used in the body of `_serve_file` resolves
(local scope, then module globals, then builtins). -/
def resolvesInServeFile (n : String) : Bool :=
  serveFileLocalScope.contains n || serverModuleScope.contains n ||
    pyBuiltinScope.contains n

/-! ### src/server.py: the serving pipeline -/

/-- An HTTP response as the handlers produce it: either a plain
`web.Response(text=..., status=...)` or a prepared `StreamResponse` with its
status and header dictionary (the streamed body bytes are recorded
separately, as effects). -/
inductive Resp
  | plain (status : Int) (text : String)
  | stream (status : Int) (headers : List (String × String))
deriving Repr, DecidableEq

/-- The HTTP status of a response. -/
def Resp.status : Resp → Int
  | .plain s _ => s
  | .stream s _ => s

/-- Assignment into a header dictionary: overwrite the key when present,
append otherwise. -/
def setHeader : List (String × String) → String → String → List (String × String)
  | [], k, v => [(k, v)]
  | (k0, v0) :: hs, k, v =>
    if k0 = k then (k, v) :: hs else (k0, v0) :: setHeader hs k v

/-- Look a header up. -/
def getHeader : List (String × String) → String → Option String
  | [], _ => none
  | (k0, v0) :: hs, k => if k0 = k then some v0 else getHeader hs k

/-- The observable side effects of a request: message fetches against the
bin channel, invocations of update_file_stats (file_id and action),
invocations of `stream_media` (offset and byte count), and the resulting
stats table. -/
structure Effects where
  fetches : List Int
  statsCalls : List (String × String)
  streamCalls : List (Int × Int)
  db : List FileStat
deriving Repr, DecidableEq

/-- The collaborators a request runs against: the bin channel id, the
messaging platform (`get_messages`), `mimetypes.guess_type`, whether the
database commit inside update_file_stats would fail, and the stats table's
prior contents. -/
structure ServeEnv where
  bin_channel : Int
  getMessage : Int → Int → Except PyExc (Option Message)
  guessType : String → Option String
  statsFails : Bool
  db0 : List FileStat

/-- Python truthiness of an optional string: `None` and `""` are falsy. -/
def pyFalsyStr : Option String → Bool
  | none => true
  | some s => s == ""

/-- src/server.py lines 492-534, reachable only if the names used before
them resolved.  Computes the media info, builds the response headers, and
handles the `Range` branch; `rangeHeader` stands for the value
`request.headers.get('Range')` would yield, though the name `request` is
checked for resolution first (line 518) and is in fact unbound. -/
def serveStage3 (env : ServeEnv) (message : Message) (filename mode : String)
    (rangeHeader : Option String) (eff : Effects) : Except PyExc Resp × Effects :=
  let media := get_media_from_message message
  let file_size : Int := match media with
    | some m => m.file_size
    | none => 0
  let mime0 : Option String := match media with
    | some m => m.mime_type
    | none => none
  let mime_type :=
    if pyFalsyStr mime0 then
      match env.guessType filename with
      | some mt => if mt == "" then "application/octet-stream" else mt
      | none => "application/octet-stream"
    else mime0.getD ""
  let headers := [("Content-Type", mime_type),
                  ("Content-Length", toString file_size),
                  ("Accept-Ranges", "bytes"),
                  ("Cache-Control", "public, max-age=3600")]
  let headers :=
    if mode = "download" then
      setHeader headers "Content-Disposition"
        ("attachment; filename=\"" ++ filename ++ "\"")
    else
      setHeader headers "Content-Disposition"
        ("inline; filename=\"" ++ filename ++ "\"")
  if resolvesInServeFile "request" then
    if pyFalsyStr rangeHeader then
      let eff := { eff with streamCalls := eff.streamCalls ++ [(0, file_size)] }
      (.ok (.stream 200 headers), eff)
    else
      match _parse_range (rangeHeader.getD "") file_size with
      | (from_bytes, to_bytes) =>
        let headers := setHeader headers "Content-Range"
          ("bytes " ++ toString from_bytes ++ "-" ++ toString to_bytes ++ "/" ++
            toString file_size)
        let headers := setHeader headers "Content-Length"
          (toString (to_bytes - from_bytes + 1))
        let eff := { eff with
          streamCalls := eff.streamCalls ++ [(from_bytes, to_bytes - from_bytes + 1)] }
        (.ok (.stream 206 headers), eff)
  else
    (.error (.nameError "request"), eff)

/-- src/server.py lines 485-534, reachable only if the name `get_hash`
resolved: the hash comparison (line 486), the stats update (line 490), then
the media/headers/range stage, whose first statement (line 493) uses the
free name `get_media_from_message`. -/
def serveStage2 (env : ServeEnv) (message : Message) (mmedia : Media)
    (filename file_hash mode : String) (rangeHeader : Option String)
    (eff : Effects) : Except PyExc Resp × Effects :=
  if get_hash message ≠ file_hash then
    (.ok (.plain 403 "Invalid hash"), eff)
  else
    let eff := { eff with statsCalls := eff.statsCalls ++ [(mmedia.file_id, mode)] }
    match update_file_stats env.statsFails eff.db mmedia.file_id mode with
    | .error ex => (.error ex, eff)
    | .ok db2 =>
      let eff := { eff with db := db2 }
      if resolvesInServeFile "get_media_from_message" then
        serveStage3 env message filename mode rangeHeader eff
      else
        (.error (.nameError "get_media_from_message"), eff)

/-- The body of the `try` block of `_serve_file` (src/server.py lines
479-534): fetch the message from the bin channel (a raised
`MessageNotFound` propagates), return 404 when the message is missing or
carries no media, and otherwise continue with line 486, whose expression
`get_hash(message)` begins by resolving the free name `get_hash`. -/
def serveFileRun (env : ServeEnv) (message_id : Int)
    (filename file_hash mode : String) (rangeHeader : Option String) :
    Except PyExc Resp × Effects :=
  let eff : Effects :=
    { fetches := [message_id], statsCalls := [], streamCalls := [], db := env.db0 }
  match env.getMessage env.bin_channel message_id with
  | .error ex => (.error ex, eff)
  | .ok mopt =>
    match mopt with
    | none => (.ok (.plain 404 "File not found"), eff)
    | some message =>
      match message.media with
      | none => (.ok (.plain 404 "File not found"), eff)
      | some mmedia =>
        if resolvesInServeFile "get_hash" then
          serveStage2 env message mmedia filename file_hash mode rangeHeader eff
        else
          (.error (.nameError "get_hash"), eff)

/-- src/server.py lines 475-540: the `try` body wrapped in the two `except`
clauses — `MessageNotFound` gives 404, any other exception is logged and
gives the 500 `Internal server error` response. -/
def _serve_file (env : ServeEnv) (message_id : Int)
    (filename file_hash mode : String) (rangeHeader : Option String) :
    Resp × Effects :=
  match serveFileRun env message_id filename file_hash mode rangeHeader with
  | (.ok r, eff) => (r, eff)
  | (.error .messageNotFound, eff) => (.plain 404 "File not found", eff)
  | (.error _, eff) => (.plain 500 "Internal server error", eff)

/-- The effects of a request that never reaches `_serve_file`. -/
def initialEffects (env : ServeEnv) : Effects :=
  { fetches := [], statsCalls := [], streamCalls := [], db := env.db0 }

/-- src/server.py lines 307-316: the `/watch/{message_id}/{filename}`
handler: a missing (or empty, hence falsy) `hash` query parameter yields
the 400 response at once; otherwise `_serve_file` runs in mode
`"stream"`. -/
def stream_handler (env : ServeEnv) (message_id : Int) (filename : String)
    (queryHash rangeHeader : Option String) : Resp × Effects :=
  if pyFalsyStr queryHash then
    (.plain 400 "Invalid request", initialEffects env)
  else
    _serve_file env message_id filename (queryHash.getD "") "stream" rangeHeader

/-- src/server.py lines 318-327: the `/dl/{message_id}/{filename}` handler,
identical but for mode `"download"`. -/
def download_handler (env : ServeEnv) (message_id : Int) (filename : String)
    (queryHash rangeHeader : Option String) : Resp × Effects :=
  if pyFalsyStr queryHash then
    (.plain 400 "Invalid request", initialEffects env)
  else
    _serve_file env message_id filename (queryHash.getD "") "download" rangeHeader

/-! ### Derived notions and concrete fixtures used by the theorems -/

/-- The effects every request that enters `_serve_file` ends with: one
platform fetch, no stats invocation, no streaming, the stats table as it
was. -/
def baseEffects (env : ServeEnv) (message_id : Int) : Effects :=
  { fetches := [message_id], statsCalls := [], streamCalls := [], db := env.db0 }

/-- The response `_serve_file` produces, as a function of the platform fetch
alone: 404 when the fetch raises `MessageNotFound` or yields no message or
one without media; otherwise the catch-all 500, since evaluating line 486
raises `NameError` on the unbound identifier `get_hash`. -/
def serveOutcome : Except PyExc (Option Message) → Resp
  | .error .messageNotFound => .plain 404 "File not found"
  | .error _ => .plain 500 "Internal server error"
  | .ok none => .plain 404 "File not found"
  | .ok (some m) =>
    match m.media with
    | none => .plain 404 "File not found"
    | some _ => .plain 500 "Internal server error"

/-- Whether a character is a lowercase hexadecimal digit. -/
def isHexChar (c : Char) : Bool := hexDigits.contains c

def medC1 : Media :=
  { file_unique_id := [109, 111, 118, 49], file_id := "fileC1",
    file_size := 1000, mime_type := some "video/mp4" }

def msgC1 : Message := { media := some medC1 }

def dbC1 : List FileStat :=
  [{ file_id := "fileC1", views := 5, downloads := 2, accessed := false }]

def envC1 : ServeEnv :=
  { bin_channel := 77, getMessage := fun _ _ => .ok (some msgC1),
    guessType := fun _ => none, statsFails := false, db0 := dbC1 }

def medC2 : Media :=
  { file_unique_id := [100, 111, 99, 50], file_id := "fileC2",
    file_size := 64, mime_type := none }

def msgC2 : Message := { media := some medC2 }

def envC2 : ServeEnv :=
  { bin_channel := 12, getMessage := fun _ _ => .ok (some msgC2),
    guessType := fun _ => some "text/plain", statsFails := false, db0 := [] }

def medC3 : Media :=
  { file_unique_id := [118, 105, 100, 51], file_id := "fileC3",
    file_size := 1000, mime_type := some "video/mp4" }

def msgC3 : Message := { media := some medC3 }

def envC3 : ServeEnv :=
  { bin_channel := 9, getMessage := fun _ _ => .ok (some msgC3),
    guessType := fun _ => none, statsFails := false, db0 := [] }

def medC4 : Media :=
  { file_unique_id := [118, 105, 100, 52], file_id := "fileC4",
    file_size := 1000, mime_type := some "video/mp4" }

def msgC4 : Message := { media := some medC4 }

def envC4 : ServeEnv :=
  { bin_channel := 9, getMessage := fun _ _ => .ok (some msgC4),
    guessType := fun _ => none, statsFails := false, db0 := [] }

def medC5 : Media :=
  { file_unique_id := [118, 105, 100, 53], file_id := "fileC5",
    file_size := 2048, mime_type := some "video/mp4" }

def msgC5 : Message := { media := some medC5 }

def dbC5 : List FileStat :=
  [{ file_id := "fileC5", views := 0, downloads := 0, accessed := false }]

def envC5 : ServeEnv :=
  { bin_channel := 4, getMessage := fun _ _ => .ok (some msgC5),
    guessType := fun _ => none, statsFails := false, db0 := dbC5 }

def medC6 : Media :=
  { file_unique_id := [100, 111, 99, 54], file_id := "fileC6",
    file_size := 512, mime_type := none }

def msgC6 : Message := { media := some medC6 }

def envC6 : ServeEnv :=
  { bin_channel := 2, getMessage := fun _ _ => .ok (some msgC6),
    guessType := fun _ => none, statsFails := true,
    db0 := [{ file_id := "fileC6", views := 1, downloads := 1, accessed := false }] }

def medC7 : Media :=
  { file_unique_id := [112, 104, 111, 55], file_id := "fileC7",
    file_size := 4096, mime_type := some "image/png" }

def msgC7 : Message := { media := some medC7 }

def dbC7 : List FileStat :=
  [{ file_id := "fileC7", views := 9, downloads := 9, accessed := false }]

def envC7 : ServeEnv :=
  { bin_channel := 3, getMessage := fun _ _ => .ok (some msgC7),
    guessType := fun _ => none, statsFails := false, db0 := dbC7 }

def medC9 : Media :=
  { file_unique_id := [97, 98, 99], file_id := "fileC9",
    file_size := 7, mime_type := none }

def medC9b : Media :=
  { file_unique_id := [97, 98, 99], file_id := "otherC9",
    file_size := 99, mime_type := some "text/plain" }

def msgC9 : Message := { media := some medC9 }

def msgC9b : Message := { media := some medC9b }

/-! ### Sanity checks on the embedding -/

lemma md5_vector_empty :
    md5hexChars [] = "d41d8cd98f00b204e9800998ecf8427e".data := by decide

lemma md5_vector_abc :
    md5hexChars [97, 98, 99] = "900150983cd24fb0d6963f7d28e17f72".data := by
  decide

lemma update_file_stats_view_increments :
    update_file_stats false [⟨"f1", 5, 2, false⟩] "f1" "view" =
      .ok [⟨"f1", 6, 2, true⟩] := by decide

lemma update_file_stats_stream_does_not_increment :
    update_file_stats false [⟨"f1", 5, 2, false⟩] "f1" "stream" =
      .ok [⟨"f1", 5, 2, true⟩] := by decide

lemma get_hash_unresolved : resolvesInServeFile "get_hash" = false := by decide

lemma get_media_from_message_unresolved :
    resolvesInServeFile "get_media_from_message" = false := by decide

lemma request_unresolved : resolvesInServeFile "request" = false := by decide

lemma update_file_stats_resolved :
    resolvesInServeFile "update_file_stats" = true := by decide

lemma parse_range_closed_example : _parse_range "bytes=0-99" 1000 = (0, 99) := by
  decide

lemma parse_range_open_example : _parse_range "bytes=900-" 1000 = (900, 999) := by
  decide

lemma parse_range_malformed_example : _parse_range "bytes=abc" 1000 = (0, 999) := by
  decide

lemma parse_range_inverted_example :
    _parse_range "bytes=2000-3000" 1000 = (2000, 999) := by decide

/-! ### Helper lemmas -/

lemma serve_file_char (env : ServeEnv) (message_id : Int)
    (filename file_hash mode : String) (rangeHeader : Option String) :
    _serve_file env message_id filename file_hash mode rangeHeader =
      (serveOutcome (env.getMessage env.bin_channel message_id),
        baseEffects env message_id) := by
  unfold _serve_file serveFileRun serveOutcome baseEffects
  cases h : env.getMessage env.bin_channel message_id with
  | error ex => cases ex <;> rfl
  | ok mopt =>
    cases mopt with
    | none => rfl
    | some m =>
      obtain ⟨md⟩ := m
      cases md with
      | none => rfl
      | some med => rfl

lemma serve_500_of_media (env : ServeEnv) (message_id : Int)
    (filename file_hash mode : String) (rangeHeader : Option String)
    (msg : Message) (med : Media)
    (hmsg : env.getMessage env.bin_channel message_id = .ok (some msg))
    (hmed : msg.media = some med) :
    _serve_file env message_id filename file_hash mode rangeHeader =
      (.plain 500 "Internal server error", baseEffects env message_id) := by
  rw [serve_file_char, hmsg]
  simp [serveOutcome, hmed]

lemma stream_handler_500_of_media (env : ServeEnv) (message_id : Int)
    (filename h : String) (rangeHeader : Option String)
    (msg : Message) (med : Media)
    (hmsg : env.getMessage env.bin_channel message_id = .ok (some msg))
    (hmed : msg.media = some med) (hh : h ≠ "") :
    stream_handler env message_id filename (some h) rangeHeader =
      (.plain 500 "Internal server error", baseEffects env message_id) := by
  rw [stream_handler]
  simp only [pyFalsyStr, beq_iff_eq, hh, if_false, Option.getD_some]
  exact serve_500_of_media env message_id filename h "stream" rangeHeader msg med
    hmsg hmed

lemma download_handler_500_of_media (env : ServeEnv) (message_id : Int)
    (filename h : String) (rangeHeader : Option String)
    (msg : Message) (med : Media)
    (hmsg : env.getMessage env.bin_channel message_id = .ok (some msg))
    (hmed : msg.media = some med) (hh : h ≠ "") :
    download_handler env message_id filename (some h) rangeHeader =
      (.plain 500 "Internal server error", baseEffects env message_id) := by
  rw [download_handler]
  simp only [pyFalsyStr, beq_iff_eq, hh, if_false, Option.getD_some]
  exact serve_500_of_media env message_id filename h "download" rangeHeader msg med
    hmsg hmed

lemma leBytes_length (n count : Nat) : (leBytes n count).length = count := by
  simp [leBytes]

lemma md5digestBytes_length (msg : List Nat) : (md5digestBytes msg).length = 16 := by
  simp [md5digestBytes, leBytes_length]

lemma sum_lengths_byteHex (l : List Nat) :
    ((l.map byteHex).map List.length).sum = 2 * l.length := by
  induction l with
  | nil => simp
  | cons x xs ih =>
    simp only [List.map_cons, List.sum_cons, ih, byteHex, List.length_cons,
      List.length_nil]
    omega

lemma md5hexChars_length (msg : List Nat) : (md5hexChars msg).length = 32 := by
  unfold md5hexChars
  rw [List.length_flatten, sum_lengths_byteHex, md5digestBytes_length]

lemma hexChar_isHex (n : Nat) (h : n < 16) : isHexChar (hexChar n) = true := by
  interval_cases n <;> decide

lemma mem_byteHex_flatten {c : Char} :
    ∀ l : List Nat, c ∈ (l.map byteHex).flatten → isHexChar c = true
  | [], hl => by simp at hl
  | x :: xs, hl => by
    simp only [List.map_cons, List.flatten_cons, List.mem_append] at hl
    rcases hl with h1 | h2
    · simp only [byteHex, List.mem_cons, List.not_mem_nil, or_false] at h1
      rcases h1 with h1 | h1 <;>
        (rw [h1]; exact hexChar_isHex _ (Nat.mod_lt _ (by decide)))
    · exact mem_byteHex_flatten xs h2

lemma md5hexChars_hex (msg : List Nat) :
    ∀ c ∈ md5hexChars msg, isHexChar c = true := by
  intro c hc
  exact mem_byteHex_flatten (md5digestBytes msg) hc

lemma get_hash_eq (m : Message) (med : Media) (h : m.media = some med) :
    get_hash m = String.mk ((md5hexChars med.file_unique_id).take 12) := by
  unfold get_hash get_media_from_message
  rw [h]

lemma get_hash_length (m : Message) (med : Media) (h : m.media = some med) :
    (get_hash m).length = 12 := by
  rw [get_hash_eq m med h]
  show ((md5hexChars med.file_unique_id).take 12).length = 12
  rw [List.length_take, md5hexChars_length]
  decide

/-! ### Claim C1 -/

/-- C1: the claim (a correct-hash, no-Range /watch request is answered 200
with the full body streamed and the view counter incremented exactly once)
fails on the code.  With bin-channel message 1 present and carrying media,
the request with the correct hash and no Range header is answered 500
"Internal server error": evaluating line 486 of src/server.py raises
NameError on `get_hash`, which line 16 never imports, so nothing is
streamed, the stats sink is never invoked, and the view counter stays at 5.
Moreover, even a reachable stats call would not have incremented `views`:
the handler passes action "stream", which update_file_stats does not
count. -/
theorem C1_correct_hash_request_returns_500_and_counts_nothing :
    stream_handler envC1 1 "file.mp4" (some (get_hash msgC1)) none =
      (.plain 500 "Internal server error",
        { fetches := [1], statsCalls := [], streamCalls := [], db := dbC1 }) ∧
    update_file_stats false dbC1 "fileC1" "stream" =
      .ok [{ file_id := "fileC1", views := 5, downloads := 2, accessed := true }] := by
  constructor
  · decide
  · decide

/-! ### Claim C2 -/

/-- C2: for every /watch or /dl request that supplies a (nonempty) hash and
whose referenced message exists and carries media, the serve routine never
completes its success path: both handlers return the status-500 "Internal
server error" response — the body of `_serve_file` uses the names `get_hash`
(line 486) and `request` (line 518), neither of which resolves in its scope,
and the resulting NameError is caught by the catch-all `except` clause. -/
theorem C2_media_request_always_500 (env : ServeEnv) (message_id : Int)
    (filename h : String) (rangeHeader : Option String)
    (msg : Message) (med : Media)
    (hmsg : env.getMessage env.bin_channel message_id = .ok (some msg))
    (hmed : msg.media = some med) (hh : h ≠ "") :
    stream_handler env message_id filename (some h) rangeHeader =
      (.plain 500 "Internal server error", baseEffects env message_id) ∧
    download_handler env message_id filename (some h) rangeHeader =
      (.plain 500 "Internal server error", baseEffects env message_id) :=
  ⟨stream_handler_500_of_media env message_id filename h rangeHeader msg med
      hmsg hmed hh,
    download_handler_500_of_media env message_id filename h rangeHeader msg med
      hmsg hmed hh⟩

theorem C2_witness :
    envC2.getMessage envC2.bin_channel 5 = .ok (some msgC2) ∧
    msgC2.media = some medC2 ∧ "deadbeefcafe" ≠ "" ∧
    (stream_handler envC2 5 "f.bin" (some "deadbeefcafe") none =
        (.plain 500 "Internal server error", baseEffects envC2 5) ∧
      download_handler envC2 5 "f.bin" (some "deadbeefcafe") none =
        (.plain 500 "Internal server error", baseEffects envC2 5)) :=
  ⟨rfl, rfl, by decide,
    C2_media_request_always_500 envC2 5 "f.bin" "deadbeefcafe" none msgC2 medC2
      rfl rfl (by decide)⟩

/-! ### Claim C3 -/

/-- C3 counterexample: the request /watch/5/movie.mp4?hash=aaaabbbbcccc with
the malformed header Range: bytes=abc, against a bin channel where message 5
exists and carries media, is answered with status 500 — not the status 200
the claim requires. -/
theorem C3_counterexample :
    (stream_handler envC3 5 "movie.mp4" (some "aaaabbbbcccc")
        (some "bytes=abc")).1.status = 500 ∧ ((500 : Int) ≠ 200) := by
  decide

/-- C3 amended: `_parse_range` maps the malformed value bytes=abc to the
full interval [0, total_size - 1], and the response to a malformed-Range
request is indeed identical to the no-Range response — but for a message
that exists and carries media both are the catch-all 500 "Internal server
error", not 200: `_serve_file` raises NameError on the unbound name
`get_hash` before any range handling (and could not read the header anyway,
since its scope does not bind `request` either). -/
theorem C3_amended_malformed_range (env : ServeEnv) (message_id : Int)
    (filename h : String) (file_size : Int) (msg : Message) (med : Media)
    (hmsg : env.getMessage env.bin_channel message_id = .ok (some msg))
    (hmed : msg.media = some med) (hh : h ≠ "") :
    _parse_range "bytes=abc" file_size = (0, file_size - 1) ∧
    stream_handler env message_id filename (some h) (some "bytes=abc") =
      stream_handler env message_id filename (some h) none ∧
    (stream_handler env message_id filename (some h) (some "bytes=abc")).1 =
      .plain 500 "Internal server error" := by
  refine ⟨rfl, ?_, ?_⟩
  · rw [stream_handler_500_of_media env message_id filename h (some "bytes=abc")
        msg med hmsg hmed hh,
      stream_handler_500_of_media env message_id filename h none
        msg med hmsg hmed hh]
  · rw [stream_handler_500_of_media env message_id filename h (some "bytes=abc")
        msg med hmsg hmed hh]

theorem C3_witness :
    envC3.getMessage envC3.bin_channel 5 = .ok (some msgC3) ∧
    msgC3.media = some medC3 ∧ "aaaabbbbcccc" ≠ "" ∧
    (_parse_range "bytes=abc" 1000 = (0, 1000 - 1) ∧
      stream_handler envC3 5 "movie.mp4" (some "aaaabbbbcccc") (some "bytes=abc") =
        stream_handler envC3 5 "movie.mp4" (some "aaaabbbbcccc") none ∧
      (stream_handler envC3 5 "movie.mp4" (some "aaaabbbbcccc")
          (some "bytes=abc")).1 = .plain 500 "Internal server error") :=
  ⟨rfl, rfl, by decide,
    C3_amended_malformed_range envC3 5 "movie.mp4" "aaaabbbbcccc" 1000 msgC3 medC3
      rfl rfl (by decide)⟩

/-! ### Claim C4 -/

/-- C4 counterexample: a request for bytes=2000-3000 of a 1000-byte file
(message present and carrying media, hash supplied) is answered with status
500 — not the status 416 the claim requires; and `_parse_range` itself turns
that header into the inverted pair (2000, 999) rather than signalling an
unsatisfiable range. -/
theorem C4_counterexample :
    (stream_handler envC4 5 "movie.mp4" (some "aaaabbbbcccc")
        (some "bytes=2000-3000")).1.status = 500 ∧ ((500 : Int) ≠ 416) ∧
    _parse_range "bytes=2000-3000" 1000 = (2000, 999) := by
  decide

/-- C4 amended: the code has no 416 path.  `_parse_range` clamps only the
end bound (`min to_bytes (file_size - 1)`) and floors the start at 0, so
bytes=2000-3000 on a 1000-byte file yields the inverted interval
(2000, 999); and the serve request itself is answered with the catch-all 500
"Internal server error", `_serve_file` having raised NameError on the
unbound name `get_hash` before any range handling. -/
theorem C4_amended_no_416 (env : ServeEnv) (message_id : Int)
    (filename h : String) (msg : Message) (med : Media)
    (hmsg : env.getMessage env.bin_channel message_id = .ok (some msg))
    (hmed : msg.media = some med) (hh : h ≠ "") :
    _parse_range "bytes=2000-3000" 1000 = (2000, 999) ∧
    stream_handler env message_id filename (some h) (some "bytes=2000-3000") =
      (.plain 500 "Internal server error", baseEffects env message_id) := by
  refine ⟨by decide, ?_⟩
  exact stream_handler_500_of_media env message_id filename h
    (some "bytes=2000-3000") msg med hmsg hmed hh

theorem C4_witness :
    envC4.getMessage envC4.bin_channel 5 = .ok (some msgC4) ∧
    msgC4.media = some medC4 ∧ "aaaabbbbcccc" ≠ "" ∧
    (_parse_range "bytes=2000-3000" 1000 = (2000, 999) ∧
      stream_handler envC4 5 "movie.mp4" (some "aaaabbbbcccc")
          (some "bytes=2000-3000") =
        (.plain 500 "Internal server error", baseEffects envC4 5)) :=
  ⟨rfl, rfl, by decide,
    C4_amended_no_416 envC4 5 "movie.mp4" "aaaabbbbcccc" msgC4 medC4
      rfl rfl (by decide)⟩

/-! ### Claim C5 -/

/-- C5 counterexample: a fully valid watch request (message present and
carrying media, correct hash, no Range) does not invoke the stats sink
exactly once — it does not invoke it at all, and streams nothing. -/
theorem C5_counterexample :
    envC5.getMessage envC5.bin_channel 4 = .ok (some msgC5) ∧
    msgC5.media = some medC5 ∧
    (stream_handler envC5 4 "m.mp4" (some (get_hash msgC5)) none).2.statsCalls.length
      ≠ 1 ∧
    (stream_handler envC5 4 "m.mp4" (some (get_hash msgC5)) none).2.streamCalls
      = [] := by
  decide

/-- C5 amended: the stats sink is never invoked by any serve request, the
stats table is never changed, and nothing is ever streamed: every request
that would reach the stats call (line 490 of src/server.py) has already
raised NameError on `get_hash` at line 486 — a call which, as written, would
in any case precede the streaming loop (line 531), not follow it.  In
particular no disconnect scenario ever increments a counter. -/
theorem C5_amended_stats_never_invoked (env : ServeEnv) (message_id : Int)
    (filename file_hash mode : String) (rangeHeader : Option String) :
    (_serve_file env message_id filename file_hash mode rangeHeader).2.statsCalls
      = [] ∧
    (_serve_file env message_id filename file_hash mode rangeHeader).2.db
      = env.db0 ∧
    (_serve_file env message_id filename file_hash mode rangeHeader).2.streamCalls
      = [] := by
  rw [serve_file_char]
  exact ⟨rfl, rfl, rfl⟩

/-! ### Claim C6 -/

/-- C6 counterexample: on a valid request served under a stats sink whose
commit would fail, the file is not "still served": the response is the plain
500 "Internal server error", whose status is neither 200 nor 206. -/
theorem C6_counterexample :
    (stream_handler envC6 2 "f.bin" (some "hhh") none).1 =
      .plain 500 "Internal server error" ∧
    (Resp.plain 500 "Internal server error").status ≠ 200 ∧
    (Resp.plain 500 "Internal server error").status ≠ 206 := by
  decide

/-- C6 amended: the response is indeed identical whether or not the stats
commit would fail — but vacuously so: the stats call at line 490 of
src/server.py is unreachable (the NameError on `get_hash` at line 486
precedes it), the sink is never invoked, and the request is answered with
404 or the catch-all 500 without the file ever being served. -/
theorem C6_amended_sink_failure_vacuous (env : ServeEnv) (message_id : Int)
    (filename file_hash mode : String) (rangeHeader : Option String) :
    _serve_file { env with statsFails := true }
        message_id filename file_hash mode rangeHeader =
      _serve_file { env with statsFails := false }
        message_id filename file_hash mode rangeHeader ∧
    (_serve_file { env with statsFails := true }
        message_id filename file_hash mode rangeHeader).2.statsCalls = [] := by
  rw [serve_file_char, serve_file_char]
  exact ⟨rfl, rfl⟩

/-! ### Claim C7 -/

/-- C7: the claim (a wrong-hash request is answered 403 with no bytes
streamed and no stats-sink call) fails on the code: the 403 branch at line
487 of src/server.py is unreachable, because evaluating its guard
`get_hash(message) != file_hash` first raises NameError on the unbound name
`get_hash`.  The request below carries a hash that provably differs from the
message's token, yet the response is the catch-all 500 — though indeed with
no streaming and no stats call. -/
theorem C7_wrong_hash_returns_500_not_403 :
    "000000000000" ≠ get_hash msgC7 ∧
    stream_handler envC7 3 "f.png" (some "000000000000") none =
      (.plain 500 "Internal server error",
        { fetches := [3], statsCalls := [], streamCalls := [], db := dbC7 }) := by
  decide

/-! ### Claim C8 -/

/-- C8: range parsing with the total size known: bytes=0-99 on a 1000-byte
file yields the interval (0, 99); the open-ended bytes=900- yields
(900, 999); and a parsed end bound at or beyond the total size is clamped —
by the `min to_bytes (file_size - 1)` of `clampRange`, the arithmetic
`_parse_range` applies to every successfully parsed pair — to
total_size - 1, as the whole-header instance bytes=0-2000 on 1000 bytes
confirms. -/
theorem C8_range_parsing :
    _parse_range "bytes=0-99" 1000 = (0, 99) ∧
    _parse_range "bytes=900-" 1000 = (900, 999) ∧
    (∀ from_bytes to_bytes file_size : Int, file_size ≤ to_bytes →
      (clampRange from_bytes to_bytes file_size).2 = file_size - 1) ∧
    _parse_range "bytes=0-2000" 1000 = (0, 999) := by
  refine ⟨by decide, by decide, ?_, by decide⟩
  intro f t n h
  show min t (n - 1) = n - 1
  omega

theorem C8_witness :
    (1000 : Int) ≤ 2000 ∧ (clampRange 0 2000 1000).2 = 1000 - 1 :=
  ⟨by decide, C8_range_parsing.2.2.1 0 2000 1000 (by decide)⟩

/-! ### Claim C9 -/

/-- C9: the integrity token computed by src/utils.py get_hash is
deterministic — it depends only on the media's file_unique_id, so two
messages agreeing there receive the identical token whatever their other
fields — and equals the 12-character prefix of the md5 hex digest of the
id: 12 characters long, all lowercase hex.  Verifying the computed token
against the same id succeeds: the equality comparison the server applies
(the negation of `get_hash(message) != file_hash`, line 486 of
src/server.py) is true when the candidate is the computed token. -/
theorem C9_token_deterministic_12_hex (m m2 : Message) (med med2 : Media)
    (h : m.media = some med) (h2 : m2.media = some med2)
    (hid : med.file_unique_id = med2.file_unique_id) :
    get_hash m = String.mk ((md5hexChars med.file_unique_id).take 12) ∧
    get_hash m = get_hash m2 ∧
    (get_hash m).length = 12 ∧
    (∀ c ∈ (get_hash m).data, isHexChar c = true) ∧
    (get_hash m == get_hash m) = true := by
  refine ⟨get_hash_eq m med h, ?_, get_hash_length m med h, ?_, ?_⟩
  · rw [get_hash_eq m med h, get_hash_eq m2 med2 h2, hid]
  · intro c hc
    rw [get_hash_eq m med h] at hc
    exact md5hexChars_hex med.file_unique_id c (List.take_subset 12 _ hc)
  · simp

theorem C9_witness :
    msgC9.media = some medC9 ∧ msgC9b.media = some medC9b ∧
    medC9.file_unique_id = medC9b.file_unique_id ∧
    (get_hash msgC9 = String.mk ((md5hexChars medC9.file_unique_id).take 12) ∧
      get_hash msgC9 = get_hash msgC9b ∧
      (get_hash msgC9).length = 12 ∧
      (∀ c ∈ (get_hash msgC9).data, isHexChar c = true) ∧
      (get_hash msgC9 == get_hash msgC9) = true) :=
  ⟨rfl, rfl, rfl,
    C9_token_deterministic_12_hex msgC9 msgC9b medC9 medC9b rfl rfl rfl⟩

/-! ### Claim C10 -/

/-- C10: a GET request to /watch/{message_id}/{filename} or
/dl/{message_id}/{filename} whose query string lacks the hash parameter is
answered 400 "Invalid request" immediately: no message fetch against the
messaging platform, no stats-sink invocation, no streaming, and the stats
table untouched. -/
theorem C10_missing_hash_immediate_400 (env : ServeEnv) (message_id : Int)
    (filename : String) (rangeHeader : Option String) :
    stream_handler env message_id filename none rangeHeader =
      (.plain 400 "Invalid request",
        { fetches := [], statsCalls := [], streamCalls := [], db := env.db0 }) ∧
    download_handler env message_id filename none rangeHeader =
      (.plain 400 "Invalid request",
        { fetches := [], statsCalls := [], streamCalls := [], db := env.db0 }) :=
  ⟨rfl, rfl⟩
